import Mathlib

/-!
Verification development for the SpiderFoot template module
(modules/sfp_template.py).

The module is a single event-processing unit: it receives typed events,
gates them through an error-state latch (circuit breaker), a credential
check and a seen-set (dedup), applies a netblock admission policy, and —
in the per-key loop of lines 220-273 — queries an external source and
emits derived events with provenance links.

Central fact about the source that the embedding reflects: line 13
imports only SpiderFoot, SpiderFootPlugin and SpiderFootEvent, so
`IPNetwork`, `json` and the local `qrylist` are all unbound names in this
module.  Every event that passes all gates therefore raises a Python
NameError: a NETBLOCK_OWNER event with netblocklookup enabled at line 204
and any other NETBLOCK_* event at line 214 (resolving `IPNetwork`, before
any range parse or prefix comparison can happen), and any non-netblock
event at line 218 (resolving `qrylist`).  The `json` lookup at line 158
also raises, but inside the try of lines 157-161, where it is caught.
The per-key loop of lines 220-273 is thus unreachable from `handleEvent`,
which is embedded with an explicit `err` field recording the uncaught
exception; the loop body is embedded separately (`perKeyLoop`),
parameterized by the key list the source never builds.
-/

/-- String constant: the event type of owned-netblock events (line 199). -/
def nbOwner : String := "NETBLOCK_OWNER"

/-- String constant: the aggregate-range family marker tested with
startswith at lines 213 and 232. -/
def netblockPre : String := "NETBLOCK_"

/-- String constant: the type of address events synthesized at line 241. -/
def tIpAddress : String := "IP_ADDRESS"

/-- String constant: the type of raw-evidence events emitted at line 258. -/
def tRawRir : String := "RAW_RIR_DATA"

/-- String constant: the type of OS events emitted at line 271. -/
def tOperatingSystem : String := "OPERATING_SYSTEM"

/-- Modelled from the spec: the producing module's identity
(`self.__name__`, set by the sflib plugin base class to the module file
name, which is not under src/). -/
def modName : String := "sfp_template"

/-- Marker for the Python exception raised when the unbound local
`qrylist` is first read (line 218; the netblock paths raise over the
unbound `IPNetwork` first, at lines 204/214). -/
def nameErrorQrylist : String := "NameError: name qrylist is not defined"

/-- Marker for the Python exception raised while resolving the unbound
name `IPNetwork` (line 204 for NETBLOCK_OWNER with lookup enabled, line
214 for any other NETBLOCK_* event), before any range parse or prefix
comparison can happen. -/
def nameErrorIPNetwork : String := "NameError: name IPNetwork is not defined"

/-- SpiderFootEvent (constructed at lines 241, 258, 271): an event type,
a string payload, the producing module, and an optional source (parent)
event.  Root/seed events have no parent. -/
inductive SFEvent : Type where
  | mk (eventType : String) (data : String) (module_ : String)
       (sourceEvent : Option SFEvent) : SFEvent

/-- Projection: event.eventType (line 171). -/
def SFEvent.eventType : SFEvent → String
  | .mk t _ _ _ => t

/-- Projection: event.data (line 173). -/
def SFEvent.data : SFEvent → String
  | .mk _ d _ _ => d

/-- Projection: event.module (line 172). -/
def SFEvent.module_ : SFEvent → String
  | .mk _ _ m _ => m

/-- Projection: the source (parent) event passed as the last constructor
argument at lines 241, 258 and 271. -/
def SFEvent.sourceEvent : SFEvent → Option SFEvent
  | .mk _ _ _ p => p

/-- The options of the module that `handleEvent` and `query` name:
`api_key` (line 185), `netblocklookup` (line 201) and `maxnetblock`
(line 204; never actually read at runtime, since the comparison's left
operand raises over the unbound `IPNetwork` first).  The remaining
entries of the opts dictionary (lines 55-82) are never consulted by this
module's code. -/
structure Opts where
  api_key : String
  netblocklookup : Bool
  maxnetblock : Nat

/-- The defaults of the consulted options (lines 58, 67, 71). -/
def defaultOpts : Opts := ⟨"", true, 24⟩

/-- Mutable per-instance state: `self.results` (the seen-set dict, line
112, keyed by event data with lines 191/197) and `self.errorState`
(lines 104, 176, 187). -/
structure ModuleState where
  results : List String
  errorState : Bool

/-- State right after `setup` (line 112: empty dict; line 104:
errorState False). -/
def initialModuleState : ModuleState := ⟨[], false⟩

/-- watchedEvents() (lines 122-123). -/
def watchedEvents : List String :=
  [tIpAddress, nbOwner, "DOMAIN_NAME", "WEB_ANALYTICS_ID"]

/-- producedEvents() (lines 126-129). -/
def producedEvents : List String :=
  [tOperatingSystem, "DEVICE_TYPE", "TCP_PORT_OPEN", "TCP_PORT_OPEN_BANNER",
   tRawRir, "GEOINFO", "VULNERABILITY"]

/-- Modelled from the spec: the loosely structured third-party record
(parsed JSON) returned by the source.  The code inspects only the
optional os entry (`rec.get('os')`, lines 270-271) and the record's full
serialized form (`str(rec)`, line 258), so the model keeps exactly
those. -/
structure ThirdPartyRecord where
  os : Option String
  asStr : String

/-- Character constant used by the CIDR parser. -/
def dotChar : Char := '.'

/-- Character constant used by the CIDR parser. -/
def slashChar : Char := '/'

/-- Split a character list at every occurrence of `c` (an executable
stand-in for string splitting that the kernel can evaluate). -/
def splitOnChar (c : Char) : List Char → List (List Char)
  | [] => [[]]
  | x :: xs =>
    let r := splitOnChar c xs
    if x = c then [] :: r
    else
      match r with
      | [] => [[x]]
      | y :: ys => (x :: y) :: ys

/-- Read a non-empty all-digit character list as a natural number. -/
def digitsToNat (l : List Char) : Option Nat :=
  if l = [] then none
  else if l.all Char.isDigit then
    some (l.foldl (fun acc c => acc * 10 + (c.toNat - 48)) 0)
  else none

/-- Read one dotted-quad octet (digits, value at most 255). -/
def octetVal (l : List Char) : Option Nat :=
  match digitsToNat l with
  | some n => if n ≤ 255 then some n else none
  | none => none

/-- Read a dotted-quad IPv4 address as a 32-bit natural number. -/
def parseIPv4Chars (l : List Char) : Option Nat :=
  match (splitOnChar dotChar l).map octetVal with
  | [some a, some b, some c, some d] =>
      some (((a * 256 + b) * 256 + c) * 256 + d)
  | _ => none

/-- Modelled from the spec (admission policy and range expander
boundary): a parsed CIDR range with its prefix length.  In the source
the corresponding `IPNetwork(eventData)` calls never execute (the name
is unbound), so this type is no part of the handler's embedding; it
exists to state which range inputs the admission-policy claims quantify
over. -/
structure IPNet where
  addr : Nat
  prefixlen : Nat

/-- Modelled from the spec (admission policy): a CIDR-notation parser
in the role netaddr's `IPNetwork` would play; a bare address gets prefix
length 32.  It is used only in claim statements (hypotheses delimiting
which ranges a claim covers), never by `handleEvent`, whose line-204/214
calls raise over the unbound name before netaddr could run. -/
def parseIPNetwork (s : String) : Option IPNet :=
  match splitOnChar slashChar s.toList with
  | [addrPart] =>
    match parseIPv4Chars addrPart with
    | some ip => some ⟨ip, 32⟩
    | none => none
  | [addrPart, plPart] =>
    match parseIPv4Chars addrPart, digitsToNat plPart with
    | some ip, some pl => if pl ≤ 32 then some ⟨ip, pl⟩ else none
    | _, _ => none
  | _ => none

/-- The prefix length of a CIDR string, when it parses: the quantity
the admission policy of the spec (and the never-evaluated comparison at
line 204) refers to.  Used only to state claims. -/
def prefixlenOf (s : String) : Option Nat :=
  (parseIPNetwork s).map (fun n => n.prefixlen)

/-- Executable stand-in for `eventName.startswith("NETBLOCK_")`
(lines 213 and 232). -/
def startsWithNetblock (t : String) : Bool :=
  netblockPre.toList.isPrefixOf t.toList

/-- The URL built at lines 140-141. -/
def shodanUrl (opts : Opts) (qry : String) : String :=
  "https://api.shodan.io/shodan/host/" ++ qry ++ "?key=" ++ opts.api_key

/-- Outcome of one `query` call: the record (or None) plus how many
informational (line 152) and non-fatal error (line 160) logs it made. -/
structure QueryOut where
  record : Option ThirdPartyRecord
  infoLogs : Nat
  errorLogs : Nat

/-- query(qry) (lines 133-163).  `fetch` is the injected transport
(sflib's fetchUrl, which is not under src/), giving the response content
or None; `jsonLoads` is the injected decoder standing for `json.loads`
at line 158.  Note the source never imports `json`, so at runtime the
line-158 call raises NameError, which the bare `except Exception` at
line 159 catches: that behaviour is the special case of a decoder that
fails on every input, so quantifying over `jsonLoads` subsumes it.
Paths: content None gives an informational log and no record (lines
151-153); a present but undecodable body gives a non-fatal error log and
no record (lines 157-161); otherwise the parsed record is returned. -/
def query (opts : Opts) (fetch : String → Option String)
    (jsonLoads : String → Option ThirdPartyRecord) (qry : String) : QueryOut :=
  match fetch (shodanUrl opts qry) with
  | none => ⟨none, 1, 0⟩
  | some content =>
    match jsonLoads content with
    | none => ⟨none, 0, 1⟩
    | some info => ⟨some info, 0, 0⟩

/-- Outcome of one `handleEvent` call: the updated instance state, the
events given to notifyListeners in order, the keys passed to `query`,
the number of missing-credential error logs (line 186), the number of
`checkForStop()` polls (line 263), and the uncaught Python exception,
if any, that the call raises instead of returning. -/
structure HandleOut where
  st : ModuleState
  emitted : List SFEvent
  queried : List String
  configErrors : Nat
  stopChecks : Nat
  err : Option String

/-- handleEvent(event) (lines 166-273), faithful to the source as
written.  Control: the errorState latch returns immediately (lines
176-177); an empty api_key logs the configuration error once, sets
errorState and returns (lines 185-188); already-seen data returns at the
dedup gate (lines 191-193); otherwise the data is marked seen (line 197)
before anything else.  A NETBLOCK_OWNER event with netblocklookup off
then returns None at lines 201-202.  Every other surviving event raises
NameError: a NETBLOCK_OWNER event (lookup on) at line 204 and any other
NETBLOCK_* event at line 214, both while resolving the unbound name
`IPNetwork` — before the prefix comparison can evaluate, before
maxnetblock is read, and before `qrylist` is reached — and a
non-netblock event at line 218 while resolving the unbound name
`qrylist`.  The loop of lines 220-273 is unreachable, so no event is
ever emitted and no query is ever made (the transport, decoder and
stop-flag arguments are consequently unused).  The netblock branches are
written here merged with the startswith test of line 213, which does not
change which statement raises first. -/
def handleEvent (opts : Opts) (_fetch : String → Option String)
    (_jsonLoads : String → Option ThirdPartyRecord) (_checkForStop : Nat → Bool)
    (st : ModuleState) (event : SFEvent) : HandleOut :=
  if st.errorState then ⟨st, [], [], 0, 0, none⟩
  else if opts.api_key = "" then
    ⟨{ st with errorState := true }, [], [], 1, 0, none⟩
  else if event.data ∈ st.results then ⟨st, [], [], 0, 0, none⟩
  else
    let st1 : ModuleState := { st with results := event.data :: st.results }
    if event.eventType = nbOwner then
      if opts.netblocklookup = false then ⟨st1, [], [], 0, 0, none⟩
      else ⟨st1, [], [], 0, 0, some nameErrorIPNetwork⟩
    else if startsWithNetblock event.eventType then
      ⟨st1, [], [], 0, 0, some nameErrorIPNetwork⟩
    else ⟨st1, [], [], 0, 0, some nameErrorQrylist⟩

/-- Outcome of the per-key loop: the events given to notifyListeners in
order, the keys passed to `query`, and how many times `checkForStop()`
was polled. -/
structure LoopOut where
  emitted : List SFEvent
  queried : List String
  stopChecks : Nat

/-- The per-key loop of lines 220-273, embedded as the source fragment
it is, parameterized by the key list `qrylist` that the source leaves
unbound (which is why `handleEvent` itself never reaches this code).
For each key: query it (line 223); on no record, continue with the next
key (lines 226-227); for aggregate-range triggers synthesize and emit an
IP_ADDRESS event parented to the triggering event and use it as parent,
otherwise parent to the triggering event itself (lines 232-249); emit
RAW_RIR_DATA parented there (lines 258-259); poll checkForStop and stop
the whole loop if set (lines 263-264); finally, when the record has an
os entry, emit OPERATING_SYSTEM parented the same way (lines 270-273).
The counter `n` numbers the checkForStop polls so the externally-owned
stop flag can be any function of time. -/
def perKeyLoop (opts : Opts) (fetch : String → Option String)
    (jsonLoads : String → Option ThirdPartyRecord) (checkForStop : Nat → Bool)
    (event : SFEvent) : List String → Nat → LoopOut
  | [], _ => ⟨[], [], 0⟩
  | addr :: rest, n =>
    match (query opts fetch jsonLoads addr).record with
    | none =>
      let r := perKeyLoop opts fetch jsonLoads checkForStop event rest n
      ⟨r.emitted, addr :: r.queried, r.stopChecks⟩
    | some record =>
      let isNb := startsWithNetblock event.eventType
      let pevent : SFEvent :=
        if isNb then SFEvent.mk tIpAddress addr modName (some event) else event
      let ipEvts : List SFEvent := if isNb then [pevent] else []
      let rawEvt : SFEvent := SFEvent.mk tRawRir record.asStr modName (some pevent)
      if checkForStop n then ⟨ipEvts ++ [rawEvt], [addr], 1⟩
      else
        let osEvts : List SFEvent :=
          match record.os with
          | some o =>
            [SFEvent.mk tOperatingSystem (o ++ " (" ++ addr ++ ")") modName
              (some pevent)]
          | none => []
        let r := perKeyLoop opts fetch jsonLoads checkForStop event rest (n + 1)
        ⟨ipEvts ++ [rawEvt] ++ osEvts ++ r.emitted, addr :: r.queried,
         1 + r.stopChecks⟩

/-- Accumulated outcome of dispatching a list of events to the same
instance in sequence, as the orchestrator does for one run. -/
structure RunOut where
  st : ModuleState
  emitted : List SFEvent
  configErrors : Nat

/-- Dispatch a list of events to one instance in sequence, threading the
instance state and accumulating emissions and missing-credential
logs. -/
def processAll (opts : Opts) (fetch : String → Option String)
    (jsonLoads : String → Option ThirdPartyRecord)
    (checkForStop : Nat → Bool) : ModuleState → List SFEvent → RunOut
  | st, [] => ⟨st, [], 0⟩
  | st, e :: es =>
    let r := handleEvent opts fetch jsonLoads checkForStop st e
    let rest := processAll opts fetch jsonLoads checkForStop r.st es
    ⟨rest.st, r.emitted ++ rest.emitted, r.configErrors + rest.configErrors⟩

/-! Concrete instances used by evaluation theorems and witnesses. -/

/-- Options with the credential set, netblock lookup on, maxnetblock 24
(the scenario configuration of the spec). -/
def optsX : Opts := ⟨"X", true, 24⟩

/-- Options with the credential set and netblock lookup disabled. -/
def optsNoLookup : Opts := ⟨"X", false, 24⟩

/-- Transport stub: every request returns a body. -/
def stubFetch : String → Option String := fun _ => some ("shodanbody")

/-- Transport stub: every request returns no body. -/
def emptyFetch : String → Option String := fun _ => none

/-- A third-party record carrying an os label. -/
def stubRecord : ThirdPartyRecord := ⟨some ("Linux"), "linuxrecord"⟩

/-- Decoder stub: every body decodes to `stubRecord`. -/
def stubLoads : String → Option ThirdPartyRecord := fun _ => some stubRecord

/-- Decoder stub: no body decodes. -/
def failLoads : String → Option ThirdPartyRecord := fun _ => none

/-- Stop flag that is never set. -/
def noStop : Nat → Bool := fun _ => false

/-- Stop flag that is already set at the first poll. -/
def yesStop : Nat → Bool := fun _ => true

/-! Helper lemmas about the embedded handler, shared by the claim
theorems below. -/

/-- Every branch of `handleEvent` as written emits no events, queries no
key and never polls the stop flag: every path that would reach the
per-key loop raises first over an unbound name (`IPNetwork` at lines
204/214, `qrylist` at line 218). -/
theorem handleEvent_inert (opts : Opts) (fetch : String → Option String)
    (jsonLoads : String → Option ThirdPartyRecord) (checkForStop : Nat → Bool)
    (st : ModuleState) (event : SFEvent) :
    (handleEvent opts fetch jsonLoads checkForStop st event).emitted = []
    ∧ (handleEvent opts fetch jsonLoads checkForStop st event).queried = []
    ∧ (handleEvent opts fetch jsonLoads checkForStop st event).stopChecks = 0 := by
  unfold handleEvent
  repeat' split
  all_goals exact ⟨rfl, rfl, rfl⟩

/-- Once the error state is set, `handleEvent` returns immediately with
the state untouched (lines 176-177). -/
theorem handleEvent_tripped (opts : Opts) (fetch : String → Option String)
    (jsonLoads : String → Option ThirdPartyRecord) (checkForStop : Nat → Bool)
    (st : ModuleState) (event : SFEvent) (h : st.errorState = true) :
    handleEvent opts fetch jsonLoads checkForStop st event
    = ⟨st, [], [], 0, 0, none⟩ := by
  unfold handleEvent
  rw [h]
  rfl

/-- From a tripped state, a whole run of further events emits nothing and
logs no configuration error. -/
theorem processAll_tripped (opts : Opts) (fetch : String → Option String)
    (jsonLoads : String → Option ThirdPartyRecord) (checkForStop : Nat → Bool)
    (st : ModuleState) (es : List SFEvent) (h : st.errorState = true) :
    processAll opts fetch jsonLoads checkForStop st es = ⟨st, [], 0⟩ := by
  induction es with
  | nil => rfl
  | cons e es ih =>
    simp only [processAll, handleEvent_tripped opts fetch jsonLoads checkForStop st e h, ih,
      List.nil_append, Nat.add_zero, Nat.zero_add]

/-- An untripped call with a credential and unseen data always marks the
data in the seen-set (line 197) before any branch returns or raises. -/
theorem handleEvent_marks (opts : Opts) (fetch : String → Option String)
    (jsonLoads : String → Option ThirdPartyRecord) (checkForStop : Nat → Bool)
    (st : ModuleState) (event : SFEvent)
    (h1 : st.errorState = false) (h2 : opts.api_key ≠ "")
    (h3 : event.data ∉ st.results) :
    (handleEvent opts fetch jsonLoads checkForStop st event).st
    = { st with results := event.data :: st.results } := by
  unfold handleEvent
  rw [h1]
  simp only [Bool.false_eq_true, if_false, if_neg h2, if_neg h3]
  repeat' split
  all_goals rfl

/-- An untripped call with a credential on already-seen data is a no-op:
it returns at the dedup gate of lines 191-193. -/
theorem handleEvent_dup (opts : Opts) (fetch : String → Option String)
    (jsonLoads : String → Option ThirdPartyRecord) (checkForStop : Nat → Bool)
    (st : ModuleState) (event : SFEvent)
    (h1 : st.errorState = false) (h2 : opts.api_key ≠ "")
    (h3 : event.data ∈ st.results) :
    handleEvent opts fetch jsonLoads checkForStop st event
    = ⟨st, [], [], 0, 0, none⟩ := by
  unfold handleEvent
  rw [h1]
  simp only [Bool.false_eq_true, if_false, if_neg h2, if_pos h3]

/-- An untripped call with an empty credential logs the configuration
error and trips the latch (lines 185-188). -/
theorem handleEvent_nokey (opts : Opts) (fetch : String → Option String)
    (jsonLoads : String → Option ThirdPartyRecord) (checkForStop : Nat → Bool)
    (st : ModuleState) (event : SFEvent)
    (h1 : st.errorState = false) (h2 : opts.api_key = "") :
    handleEvent opts fetch jsonLoads checkForStop st event
    = ⟨{ st with errorState := true }, [], [], 1, 0, none⟩ := by
  unfold handleEvent
  rw [h1, h2]
  rfl

/-- A NETBLOCK_OWNER event with netblocklookup disabled makes the call
return cleanly: line 202 returns None before the line-204 name lookup
can raise. -/
theorem handleEvent_nolookup_err (opts : Opts)
    (fetch : String → Option String)
    (jsonLoads : String → Option ThirdPartyRecord) (checkForStop : Nat → Bool)
    (st : ModuleState) (e : SFEvent)
    (hty : e.eventType = nbOwner) (hnb : opts.netblocklookup = false) :
    (handleEvent opts fetch jsonLoads checkForStop st e).err = none := by
  unfold handleEvent
  repeat' split
  all_goals first | rfl | simp_all

/-! Claim theorems. -/

/-- C1: the claim states that handleEvent never propagates an exception
and that every failure path resolves to the call returning with no
further events.  The code contradicts this: an IP_ADDRESS event that
passes every gate (credential set, fresh state) reads the unbound name
`qrylist` at line 218 and raises NameError, which propagates to the
orchestrator; nothing is emitted and no query is made. -/
theorem handleEvent_raises_for_admitted_input :
    (handleEvent optsX stubFetch stubLoads noStop initialModuleState
      (SFEvent.mk tIpAddress ("1.2.3.4") ("sfp_dnsresolve") none)).err
      = some nameErrorQrylist
    ∧ (handleEvent optsX stubFetch stubLoads noStop initialModuleState
      (SFEvent.mk tIpAddress ("1.2.3.4") ("sfp_dnsresolve") none)).emitted = []
    ∧ (handleEvent optsX stubFetch stubLoads noStop initialModuleState
      (SFEvent.mk tIpAddress ("1.2.3.4") ("sfp_dnsresolve") none)).queried = [] :=
  ⟨rfl, rfl, rfl⟩

/-- C2: in the concrete scenario (credential X, netblocklookup on,
maxnetblock 24, fresh state, stub source giving an os record for every
key), the NETBLOCK_OWNER event with data 203.0.113.0/30 does not produce
the 12 events the claim predicts: the call marks the data and then
raises NameError at line 204 while resolving the unbound name
`IPNetwork`, before any admission comparison, any query and any
emission. -/
theorem netblock_scenario_emits_nothing_and_raises :
    (handleEvent optsX stubFetch stubLoads noStop initialModuleState
      (SFEvent.mk nbOwner ("203.0.113.0/30") ("seed") none)).err
      = some nameErrorIPNetwork
    ∧ (handleEvent optsX stubFetch stubLoads noStop initialModuleState
      (SFEvent.mk nbOwner ("203.0.113.0/30") ("seed") none)).emitted = []
    ∧ (handleEvent optsX stubFetch stubLoads noStop initialModuleState
      (SFEvent.mk nbOwner ("203.0.113.0/30") ("seed") none)).queried = [] :=
  ⟨rfl, rfl, rfl⟩

/-- C3: with an empty credential, the first handleEvent call on a watched
event logs the configuration error exactly once, trips the breaker and
emits nothing; thereafter every call of the run, whatever its input,
emits nothing and logs no further configuration error. -/
theorem empty_credential_logs_once_and_trips_breaker
    (opts : Opts) (fetch : String → Option String)
    (jsonLoads : String → Option ThirdPartyRecord) (checkForStop : Nat → Bool)
    (st : ModuleState) (e : SFEvent) (es : List SFEvent)
    (hkey : opts.api_key = "") (hw : e.eventType ∈ watchedEvents)
    (hrun : st.errorState = false) :
    (handleEvent opts fetch jsonLoads checkForStop st e).emitted = []
    ∧ (handleEvent opts fetch jsonLoads checkForStop st e).configErrors = 1
    ∧ (handleEvent opts fetch jsonLoads checkForStop st e).st.errorState = true
    ∧ (processAll opts fetch jsonLoads checkForStop
        (handleEvent opts fetch jsonLoads checkForStop st e).st es).emitted = []
    ∧ (processAll opts fetch jsonLoads checkForStop
        (handleEvent opts fetch jsonLoads checkForStop st e).st es).configErrors
      = 0 := by
  have hfirst := handleEvent_nokey opts fetch jsonLoads checkForStop st e hrun hkey
  rw [hfirst]
  have hrest := processAll_tripped opts fetch jsonLoads checkForStop
    { st with errorState := true } es rfl
  simp [hrest]

/-- C3 witness: concrete empty-credential run (default options have an
empty api_key): the first call logs once and trips the latch; two later
events produce nothing and no further log. -/
theorem empty_credential_logs_once_and_trips_breaker_witness :
    (handleEvent defaultOpts stubFetch stubLoads noStop initialModuleState
      (SFEvent.mk tIpAddress ("1.1.1.1") ("seed") none)).emitted = []
    ∧ (handleEvent defaultOpts stubFetch stubLoads noStop initialModuleState
      (SFEvent.mk tIpAddress ("1.1.1.1") ("seed") none)).configErrors = 1
    ∧ (handleEvent defaultOpts stubFetch stubLoads noStop initialModuleState
      (SFEvent.mk tIpAddress ("1.1.1.1") ("seed") none)).st.errorState = true
    ∧ (processAll defaultOpts stubFetch stubLoads noStop
        (handleEvent defaultOpts stubFetch stubLoads noStop initialModuleState
          (SFEvent.mk tIpAddress ("1.1.1.1") ("seed") none)).st
        [SFEvent.mk ("DOMAIN_NAME") ("x.example") ("seed") none,
         SFEvent.mk tIpAddress ("1.1.1.1") ("seed") none]).emitted = []
    ∧ (processAll defaultOpts stubFetch stubLoads noStop
        (handleEvent defaultOpts stubFetch stubLoads noStop initialModuleState
          (SFEvent.mk tIpAddress ("1.1.1.1") ("seed") none)).st
        [SFEvent.mk ("DOMAIN_NAME") ("x.example") ("seed") none,
         SFEvent.mk tIpAddress ("1.1.1.1") ("seed") none]).configErrors = 0 :=
  empty_credential_logs_once_and_trips_breaker defaultOpts stubFetch stubLoads
    noStop initialModuleState
    (SFEvent.mk tIpAddress ("1.1.1.1") ("seed") none)
    [SFEvent.mk ("DOMAIN_NAME") ("x.example") ("seed") none,
     SFEvent.mk tIpAddress ("1.1.1.1") ("seed") none]
    rfl (by decide) rfl

/-- C4 counterexample: the claim says an event whose type is outside the
watched vocabulary leaves the seen-set completely unchanged.  It does
not: handleEvent never consults the event type before the dedup marking
of line 197, so an INTERNET_NAME event (unwatched) with a set credential
and fresh state gets its data marked in the seen-set. -/
theorem unwatched_event_marks_seen_set :
    (handleEvent optsX stubFetch stubLoads noStop initialModuleState
      (SFEvent.mk ("INTERNET_NAME") ("example.com") ("seed") none)).st.results
    = ["example.com"] := rfl

/-- C4 amended: for every event whose type is outside the watched
vocabulary, handleEvent emits no events and performs no query, but it
does not leave the seen-set unchanged: whenever the breaker is
untripped, the credential is set and the data unseen, the data is marked
(handleEvent does no type filtering; the interest filter is only the
watchedEvents declaration consumed by the orchestrator). -/
theorem unwatched_event_no_emission_but_marked (opts : Opts)
    (fetch : String → Option String)
    (jsonLoads : String → Option ThirdPartyRecord) (checkForStop : Nat → Bool)
    (st : ModuleState) (e : SFEvent)
    (hw : e.eventType ∉ watchedEvents) :
    (handleEvent opts fetch jsonLoads checkForStop st e).emitted = []
    ∧ (handleEvent opts fetch jsonLoads checkForStop st e).queried = []
    ∧ (st.errorState = false → opts.api_key ≠ "" → e.data ∉ st.results →
        e.data ∈ (handleEvent opts fetch jsonLoads checkForStop st e).st.results) := by
  refine ⟨(handleEvent_inert opts fetch jsonLoads checkForStop st e).1,
    (handleEvent_inert opts fetch jsonLoads checkForStop st e).2.1,
    fun h1 h2 h3 => ?_⟩
  rw [handleEvent_marks opts fetch jsonLoads checkForStop st e h1 h2 h3]
  exact List.mem_cons_self _ _

/-- C4 amended witness: a concrete unwatched INTERNET_NAME event emits
nothing yet its data ends up in the seen-set. -/
theorem unwatched_event_no_emission_but_marked_witness :
    (handleEvent optsX stubFetch stubLoads noStop initialModuleState
      (SFEvent.mk ("INTERNET_NAME") ("example.org") ("seed") none)).emitted = []
    ∧ ("example.org" ∈ (handleEvent optsX stubFetch stubLoads noStop
        initialModuleState
        (SFEvent.mk ("INTERNET_NAME") ("example.org") ("seed") none)).st.results) :=
  ⟨(unwatched_event_no_emission_but_marked optsX stubFetch stubLoads noStop
      initialModuleState
      (SFEvent.mk ("INTERNET_NAME") ("example.org") ("seed") none)
      (by decide)).1,
   (unwatched_event_no_emission_but_marked optsX stubFetch stubLoads noStop
      initialModuleState
      (SFEvent.mk ("INTERNET_NAME") ("example.org") ("seed") none)
      (by decide)).2.2 rfl (by decide) (by decide)⟩

/-- C5: a NETBLOCK_OWNER event rejected by the admission policy — either
netblocklookup disabled (lines 201-202), or prefix length below
maxnetblock — produces no events and never invokes the source-client
query.  Only the lookup-disabled leg is a clean discard (return None at
line 202); a size-rejected range instead raises NameError over the
unbound `IPNetwork` at line 204 before the comparison can evaluate,
still emitting nothing and querying nothing.  `prefixlenOf` is the
spec-modelled prefix length delimiting which ranges the claim covers. -/
theorem rejected_netblock_no_query_no_emission (opts : Opts)
    (fetch : String → Option String)
    (jsonLoads : String → Option ThirdPartyRecord) (checkForStop : Nat → Bool)
    (st : ModuleState) (e : SFEvent) (p : Nat)
    (hty : e.eventType = nbOwner)
    (hrej : opts.netblocklookup = false
      ∨ (prefixlenOf e.data = some p ∧ p < opts.maxnetblock)) :
    (handleEvent opts fetch jsonLoads checkForStop st e).emitted = []
    ∧ (handleEvent opts fetch jsonLoads checkForStop st e).queried = []
    ∧ (opts.netblocklookup = false →
        (handleEvent opts fetch jsonLoads checkForStop st e).err = none) :=
  ⟨(handleEvent_inert opts fetch jsonLoads checkForStop st e).1,
   (handleEvent_inert opts fetch jsonLoads checkForStop st e).2.1,
   fun hnb =>
     handleEvent_nolookup_err opts fetch jsonLoads checkForStop st e hty hnb⟩

/-- C5 witness: with netblock lookup disabled, a concrete NETBLOCK_OWNER
event yields no emission, no query and a clean return. -/
theorem rejected_netblock_no_query_no_emission_witness :
    (handleEvent optsNoLookup stubFetch stubLoads noStop initialModuleState
      (SFEvent.mk nbOwner ("10.1.2.0/24") ("seed") none)).emitted = []
    ∧ (handleEvent optsNoLookup stubFetch stubLoads noStop initialModuleState
      (SFEvent.mk nbOwner ("10.1.2.0/24") ("seed") none)).queried = []
    ∧ (handleEvent optsNoLookup stubFetch stubLoads noStop initialModuleState
      (SFEvent.mk nbOwner ("10.1.2.0/24") ("seed") none)).err = none :=
  ⟨(rejected_netblock_no_query_no_emission optsNoLookup stubFetch stubLoads
      noStop initialModuleState
      (SFEvent.mk nbOwner ("10.1.2.0/24") ("seed") none) 0
      rfl (Or.inl rfl)).1,
   (rejected_netblock_no_query_no_emission optsNoLookup stubFetch stubLoads
      noStop initialModuleState
      (SFEvent.mk nbOwner ("10.1.2.0/24") ("seed") none) 0
      rfl (Or.inl rfl)).2.1,
   (rejected_netblock_no_query_no_emission optsNoLookup stubFetch stubLoads
      noStop initialModuleState
      (SFEvent.mk nbOwner ("10.1.2.0/24") ("seed") none) 0
      rfl (Or.inl rfl)).2.2 rfl⟩

/-- C6: for two events with identical data handled in sequence by one
instance, at most one call queries the source (here in fact neither
does, the loop being unreachable), and the second call is a complete
no-op: no emission, no query, state unchanged, clean return.  The first
call either trips or finds the latch tripped, or marks the data (line
197) before returning or raising, so the second call short-circuits at
the errorState gate (line 176) or the dedup gate (lines 191-193). -/
theorem duplicate_data_second_call_inert (opts : Opts)
    (fetch : String → Option String)
    (jsonLoads : String → Option ThirdPartyRecord) (checkForStop : Nat → Bool)
    (st : ModuleState) (e1 e2 : SFEvent) (hd : e2.data = e1.data) :
    (handleEvent opts fetch jsonLoads checkForStop st e1).queried = []
    ∧ handleEvent opts fetch jsonLoads checkForStop
        (handleEvent opts fetch jsonLoads checkForStop st e1).st e2
      = ⟨(handleEvent opts fetch jsonLoads checkForStop st e1).st,
         [], [], 0, 0, none⟩ := by
  refine ⟨(handleEvent_inert opts fetch jsonLoads checkForStop st e1).2.1, ?_⟩
  by_cases hb : st.errorState = true
  · have e1eq := handleEvent_tripped opts fetch jsonLoads checkForStop st e1 hb
    simp only [e1eq]
    exact handleEvent_tripped opts fetch jsonLoads checkForStop st e2 hb
  · have hb' : st.errorState = false := by
      revert hb
      cases st.errorState <;> simp
    by_cases hk : opts.api_key = ""
    · have e1eq := handleEvent_nokey opts fetch jsonLoads checkForStop st e1 hb' hk
      simp only [e1eq]
      exact handleEvent_tripped opts fetch jsonLoads checkForStop
        { st with errorState := true } e2 rfl
    · by_cases hm : e1.data ∈ st.results
      · have e1eq := handleEvent_dup opts fetch jsonLoads checkForStop st e1 hb' hk hm
        simp only [e1eq]
        exact handleEvent_dup opts fetch jsonLoads checkForStop st e2 hb' hk
          (hd ▸ hm)
      · have hst := handleEvent_marks opts fetch jsonLoads checkForStop st e1 hb' hk hm
        have hb2 : (handleEvent opts fetch jsonLoads checkForStop st e1).st.errorState
            = false := by rw [hst]; exact hb'
        have hm2 : e2.data ∈ (handleEvent opts fetch jsonLoads checkForStop st e1).st.results := by
          rw [hst, hd]
          exact List.mem_cons_self _ _
        exact handleEvent_dup opts fetch jsonLoads checkForStop _ e2 hb2 hk hm2

/-- C6 witness: two IP_ADDRESS events with the same data: the second
call is a no-op with the state unchanged. -/
theorem duplicate_data_second_call_inert_witness :
    (handleEvent optsX stubFetch stubLoads noStop initialModuleState
      (SFEvent.mk tIpAddress ("5.6.7.8") ("seed") none)).queried = []
    ∧ handleEvent optsX stubFetch stubLoads noStop
        (handleEvent optsX stubFetch stubLoads noStop initialModuleState
          (SFEvent.mk tIpAddress ("5.6.7.8") ("seed") none)).st
        (SFEvent.mk tIpAddress ("5.6.7.8") ("othermod") none)
      = ⟨(handleEvent optsX stubFetch stubLoads noStop initialModuleState
          (SFEvent.mk tIpAddress ("5.6.7.8") ("seed") none)).st,
         [], [], 0, 0, none⟩ :=
  duplicate_data_second_call_inert optsX stubFetch stubLoads noStop
    initialModuleState (SFEvent.mk tIpAddress ("5.6.7.8") ("seed") none)
    (SFEvent.mk tIpAddress ("5.6.7.8") ("othermod") none) rfl

/-- C7: the claim (matching the module's own comments at lines 229-257)
says an admitted aggregate range yields, per responding address, one
RAW_RIR_DATA parented to a synthesized IP_ADDRESS parented to the
triggering event.  The code contradicts this: a NETBLOCK_OWNER
198.51.100.0/31 with lookup enabled and a responding stub raises
NameError at line 204 while resolving the unbound name `IPNetwork` —
the admission policy never evaluates — and emits nothing at all. -/
theorem admitted_range_crashes_no_raw_rir_data :
    (handleEvent optsX stubFetch stubLoads noStop initialModuleState
      (SFEvent.mk nbOwner ("198.51.100.0/31") ("seed") none)).err
      = some nameErrorIPNetwork
    ∧ (handleEvent optsX stubFetch stubLoads noStop initialModuleState
      (SFEvent.mk nbOwner ("198.51.100.0/31") ("seed") none)).emitted = []
    ∧ (handleEvent optsX stubFetch stubLoads noStop initialModuleState
      (SFEvent.mk nbOwner ("198.51.100.0/31") ("seed") none)).queried = [] :=
  ⟨rfl, rfl, rfl⟩

/-- C8 counterexample: the claim predicts that with the stop signal
already set, a processed aggregate range has the flag checked once per
key and the first key's complete event set emitted.  On the code, the
call raises NameError over the unbound `IPNetwork` at line 204, before
the loop: the stop flag is polled zero times and nothing is emitted. -/
theorem stop_scenario_checks_never_and_emits_nothing :
    (handleEvent optsX stubFetch stubLoads yesStop initialModuleState
      (SFEvent.mk nbOwner ("192.0.2.0/30") ("seed") none)).stopChecks = 0
    ∧ (handleEvent optsX stubFetch stubLoads yesStop initialModuleState
      (SFEvent.mk nbOwner ("192.0.2.0/30") ("seed") none)).emitted = [] :=
  ⟨rfl, rfl⟩

/-- C8 amended: in the loop body as written (lines 220-273, taken with
the key list supplied, since `handleEvent` itself raises before reaching
it), the stop flag is polled once per key that yields a record, and the
poll sits after that key's RAW_RIR_DATA emission but before its
OPERATING_SYSTEM emission: with the stop set after the first of three
keys, the first key's IP_ADDRESS and RAW_RIR_DATA events are emitted,
its OPERATING_SYSTEM event is not (though the record carries an os
label), and the remaining two keys produce nothing. -/
theorem loop_stop_check_sits_before_os_emission :
    perKeyLoop optsX stubFetch stubLoads yesStop
      (SFEvent.mk nbOwner ("10.0.0.0/24") ("seed") none)
      ["10.0.0.1", "10.0.0.2", "10.0.0.3"] 0
    = ⟨[SFEvent.mk tIpAddress ("10.0.0.1") modName
          (some (SFEvent.mk nbOwner ("10.0.0.0/24") ("seed") none)),
        SFEvent.mk tRawRir ("linuxrecord") modName
          (some (SFEvent.mk tIpAddress ("10.0.0.1") modName
            (some (SFEvent.mk nbOwner ("10.0.0.0/24") ("seed") none))))],
       ["10.0.0.1"], 1⟩ := rfl

/-- C9: query failures are per-key and never batch-fatal: when the
transport returns no body, query makes one informational log and yields
no record (lines 151-153); when the body is present but does not decode,
query makes one non-fatal error log and yields no record (lines
157-161); and a key whose query yields no record contributes nothing to
the loop's emissions or stop polls while the loop continues with the
remaining keys (lines 226-227). -/
theorem query_failures_are_per_key_only (opts : Opts)
    (fetch : String → Option String)
    (jsonLoads : String → Option ThirdPartyRecord) (checkForStop : Nat → Bool)
    (event : SFEvent) (qry content : String) (rest : List String) (n : Nat) :
    (fetch (shodanUrl opts qry) = none →
      query opts fetch jsonLoads qry = ⟨none, 1, 0⟩)
    ∧ (fetch (shodanUrl opts qry) = some content → jsonLoads content = none →
      query opts fetch jsonLoads qry = ⟨none, 0, 1⟩)
    ∧ ((query opts fetch jsonLoads qry).record = none →
      (perKeyLoop opts fetch jsonLoads checkForStop event (qry :: rest) n).emitted
        = (perKeyLoop opts fetch jsonLoads checkForStop event rest n).emitted
      ∧ (perKeyLoop opts fetch jsonLoads checkForStop event (qry :: rest) n).queried
        = qry :: (perKeyLoop opts fetch jsonLoads checkForStop event rest n).queried
      ∧ (perKeyLoop opts fetch jsonLoads checkForStop event (qry :: rest) n).stopChecks
        = (perKeyLoop opts fetch jsonLoads checkForStop event rest n).stopChecks) := by
  refine ⟨fun hf => ?_, fun hf hj => ?_, fun hq => ?_⟩
  · simp only [query, hf]
  · simp only [query, hf, hj]
  · simp only [perKeyLoop]
    rw [hq]
    exact ⟨rfl, rfl, rfl⟩

/-- C9 witness: a missing body gives the informational-log outcome; an
undecodable body gives the error-log outcome; a failing key leaves the
loop's emissions unchanged. -/
theorem query_failures_are_per_key_only_witness :
    query optsX emptyFetch stubLoads ("9.9.9.9") = ⟨none, 1, 0⟩
    ∧ query optsX stubFetch failLoads ("9.9.9.9") = ⟨none, 0, 1⟩
    ∧ (perKeyLoop optsX stubFetch failLoads noStop
        (SFEvent.mk tIpAddress ("9.9.9.9") ("seed") none) ["9.9.9.9"] 0).emitted
      = (perKeyLoop optsX stubFetch failLoads noStop
        (SFEvent.mk tIpAddress ("9.9.9.9") ("seed") none) [] 0).emitted :=
  ⟨(query_failures_are_per_key_only optsX emptyFetch stubLoads noStop
      (SFEvent.mk tIpAddress ("9.9.9.9") ("seed") none) ("9.9.9.9") ("")
      [] 0).1 rfl,
   (query_failures_are_per_key_only optsX stubFetch failLoads noStop
      (SFEvent.mk tIpAddress ("9.9.9.9") ("seed") none) ("9.9.9.9")
      ("shodanbody") [] 0).2.1 rfl rfl,
   ((query_failures_are_per_key_only optsX stubFetch failLoads noStop
      (SFEvent.mk tIpAddress ("9.9.9.9") ("seed") none) ("9.9.9.9")
      ("shodanbody") [] 0).2.2 rfl).1⟩

/-- C10: a NETBLOCK_OWNER event on which the admission policy yields no
work (lookup disabled, or prefix below maxnetblock) has already had its
data marked at line 197, so a later event with identical data is dropped
at the dedup gate of lines 191-193: the second call emits nothing,
queries nothing, leaves the state unchanged and returns cleanly, so
nothing past the dedup gate — in particular no admission re-evaluation —
ever runs on it.  For the size-delimited leg the first call in fact
raises NameError over the unbound `IPNetwork` at line 204 after marking
(the comparison itself never evaluates); the marking and the dedup drop
are unaffected. -/
theorem discarded_netblock_marked_and_deduped (opts : Opts)
    (fetch : String → Option String)
    (jsonLoads : String → Option ThirdPartyRecord) (checkForStop : Nat → Bool)
    (st : ModuleState) (e1 e2 : SFEvent) (p : Nat)
    (hty : e1.eventType = nbOwner)
    (hb : st.errorState = false) (hk : opts.api_key ≠ "")
    (hf : e1.data ∉ st.results)
    (hrej : opts.netblocklookup = false
      ∨ (prefixlenOf e1.data = some p ∧ p < opts.maxnetblock))
    (hd : e2.data = e1.data) :
    (handleEvent opts fetch jsonLoads checkForStop st e1).emitted = []
    ∧ e1.data ∈ (handleEvent opts fetch jsonLoads checkForStop st e1).st.results
    ∧ handleEvent opts fetch jsonLoads checkForStop
        (handleEvent opts fetch jsonLoads checkForStop st e1).st e2
      = ⟨(handleEvent opts fetch jsonLoads checkForStop st e1).st,
         [], [], 0, 0, none⟩ := by
  have hst := handleEvent_marks opts fetch jsonLoads checkForStop st e1 hb hk hf
  have hmem : e1.data ∈ (handleEvent opts fetch jsonLoads checkForStop st e1).st.results := by
    rw [hst]
    exact List.mem_cons_self _ _
  have hb2 : (handleEvent opts fetch jsonLoads checkForStop st e1).st.errorState
      = false := by rw [hst]; exact hb
  have hm2 : e2.data ∈ (handleEvent opts fetch jsonLoads checkForStop st e1).st.results := by
    rw [hd]
    exact hmem
  exact ⟨(handleEvent_inert opts fetch jsonLoads checkForStop st e1).1,
    hmem,
    handleEvent_dup opts fetch jsonLoads checkForStop _ e2 hb2 hk hm2⟩

/-- C10 witness: a NETBLOCK_OWNER whose prefix 16 is below maxnetblock
24 (the size-delimited leg of the claim) gets marked, and a second event
with the same data is a no-op at the dedup gate: state unchanged, clean
return, nothing past the dedup gate runs. -/
theorem discarded_netblock_marked_and_deduped_witness :
    ("203.0.113.0/16" ∈ (handleEvent optsX stubFetch stubLoads noStop
        initialModuleState
        (SFEvent.mk nbOwner ("203.0.113.0/16") ("seed") none)).st.results)
    ∧ handleEvent optsX stubFetch stubLoads noStop
        (handleEvent optsX stubFetch stubLoads noStop initialModuleState
          (SFEvent.mk nbOwner ("203.0.113.0/16") ("seed") none)).st
        (SFEvent.mk nbOwner ("203.0.113.0/16") ("othermod") none)
      = ⟨(handleEvent optsX stubFetch stubLoads noStop initialModuleState
          (SFEvent.mk nbOwner ("203.0.113.0/16") ("seed") none)).st,
         [], [], 0, 0, none⟩ :=
  ⟨(discarded_netblock_marked_and_deduped optsX stubFetch stubLoads noStop
      initialModuleState
      (SFEvent.mk nbOwner ("203.0.113.0/16") ("seed") none)
      (SFEvent.mk nbOwner ("203.0.113.0/16") ("othermod") none) 16
      rfl rfl (by decide) (by decide) (Or.inr ⟨by decide, by decide⟩)
      rfl).2.1,
   (discarded_netblock_marked_and_deduped optsX stubFetch stubLoads noStop
      initialModuleState
      (SFEvent.mk nbOwner ("203.0.113.0/16") ("seed") none)
      (SFEvent.mk nbOwner ("203.0.113.0/16") ("othermod") none) 16
      rfl rfl (by decide) (by decide) (Or.inr ⟨by decide, by decide⟩)
      rfl).2.2⟩
